import Mathlib

/-!
Verification of the InnerWorldApp event hooks: the secret-rotation state
machine (`src/infrastructure/modules/secrets/rotate_secrets.py`) and the
identity-directory (Cognito) trigger handlers
(`src/infrastructure/modules/cognito/cognito_triggers/*.py`).

The Python modules are shallowly embedded: dictionaries with string keys and
string values become association lists, the AWS Secrets Manager secret (one
secret with its versions and staging labels) becomes an explicit `Store`
value threaded through each step, raised Python exceptions become `Except`
errors, and the cryptographically random draws become oracle parameters.
-/

set_option maxHeartbeats 1000000

namespace InnerWorld

/-- A flat JSON object with string values, as the rotation code manipulates
(`json.loads` of the SecretString yields a dict from field name to string). -/
abbrev StrMap := List (String × String)

/-- Python dict assignment `d[k] = v`: overwrite the value at an existing key
in place, otherwise append the new key at the end. -/
def strSet (j : StrMap) (k v : String) : StrMap :=
  if (j.lookup k).isSome then
    j.map (fun p => if p.1 = k then (k, v) else p)
  else
    j ++ [(k, v)]

deriving instance DecidableEq for Except

namespace Rotation

/-- One version of the secret as held by the secret store: a store-assigned
version identifier, the value mapping, and the attached staging labels
(spec §3: a set of stage labels drawn from CURRENT / PENDING / PREVIOUS,
realized as the AWS strings AWSCURRENT / AWSPENDING / AWSPREVIOUS). -/
structure Version where
  vid : String
  value : StrMap
  stages : List String
deriving Repr, DecidableEq

/-- The state of the one secret being rotated: its set of versions.
Version identifiers are store-assigned and unique. -/
abbrev Store := List Version

/-- The Python exceptions the rotation module can raise or receive from the
store client. -/
inductive RotErr where
  /-- botocore ResourceNotFoundException: no version carries the requested
  staging label. -/
  | resourceNotFound
  /-- Python NameError: an unbound name was evaluated. -/
  | nameError (name : String)
  /-- Python ValueError with its message. -/
  | valueError (msg : String)
  /-- botocore ParamValidationError: a required string parameter was `None`. -/
  | paramValidation
  /-- botocore InvalidParameterException. -/
  | invalidParameter
  /-- Python IndexError: `[0]` on an empty list. -/
  | indexError
deriving Repr, DecidableEq

/-- Model of the store's GetSecretValue for this secret (spec §6
`GetVersion`): return the version carrying the requested staging label, or
ResourceNotFound when no version does.  When the code passes no
`VersionStage`, the store defaults to `AWSCURRENT`. -/
def get_secret_value (s : Store) (stage : String) : Except RotErr Version :=
  match s.find? (fun v => v.stages.contains stage) with
  | some v => .ok v
  | none => .error .resourceNotFound

/-- Model of DescribeSecret's `VersionIdsToStages` response field: a mapping
from each version identifier to the list of staging labels attached to that
version (this is the direction the AWS API documents; spec §6's
`DescribeLabels` is the inverse reading). -/
def versionIdsToStages (s : Store) : List (String × List String) :=
  s.map (fun v => (v.vid, v.stages))

/-- Attach `stage` to the version identified by `vid`, leaving every other
version unchanged (the success action of UpdateSecretVersionStage). -/
def relabel (stage vid : String) (v : Version) : Version :=
  if v.vid == vid then
    { v with stages :=
        if v.stages.contains stage then v.stages else v.stages ++ [stage] }
  else v

/-- Model of UpdateSecretVersionStage as the rotation code invokes it: with a
`VersionStage`, a `MoveToVersionId` that may be `None`, and no
`RemoveFromVersionId`.  A `None` version id fails botocore parameter
validation; a version id not present in the store fails ResourceNotFound; and
when the staging label is already attached to a different version the call
fails InvalidParameter, because moving a label off another version requires
`RemoveFromVersionId`.  On success the label is attached to the requested
version. -/
def update_secret_version_stage (s : Store) (stage : String)
    (moveTo : Option String) : Except RotErr Store :=
  match moveTo with
  | none => .error .paramValidation
  | some vid =>
    if !(s.any (fun v => v.vid == vid)) then .error .resourceNotFound
    else if s.any (fun v => v.stages.contains stage && v.vid != vid) then
      .error .invalidParameter
    else
      .ok (s.map (relabel stage vid))

/-- Model of PutSecretValue with a `VersionStage`: a new version carrying
exactly the given staging label is appended, and (per the AWS behaviour) the
label is detached from any version that previously carried it.  `freshId`
stands for the store-assigned identifier of the new version. -/
def put_secret_value (s : Store) (freshId : String) (value : StrMap)
    (stage : String) : Store :=
  (s.map (fun v => { v with stages := v.stages.filter (· != stage) }))
    ++ [⟨freshId, value, [stage]⟩]

/-- The result of one rotation step: the Python return or raised exception,
the store after the call, and the store API calls the step performed (used
to state that rejected events touch the store not at all). -/
structure StepOut where
  result : Except RotErr Unit
  store : Store
  accesses : List String
deriving Repr, DecidableEq

/-- `string.ascii_letters` (rotate_secrets.py line 92). -/
def ascii_letters : String :=
  "abcdefghijklmnopqrstuvwxyzABCDEFGHIJKLMNOPQRSTUVWXYZ"

/-- `string.digits` (rotate_secrets.py line 92). -/
def digits : String := "0123456789"

/-- The password alphabet of rotate_secrets.py line 92:
letters, digits and the fixed punctuation set. -/
def alphabet : String := ascii_letters ++ digits ++ "!@#$%^&*"

/-- Line 93: `''.join(secrets.choice(alphabet) for _ in range(32))`.  The
cryptographically secure random source is modelled by the oracle `choice`,
giving the index drawn at each of the 32 positions. -/
def new_password (choice : Nat → Nat) : String :=
  String.mk ((List.range 32).map
    (fun i => alphabet.toList.getD (choice i % alphabet.toList.length) 'a'))

/-- rotate_secrets.py line 107 evaluates `datetime.utcnow()`, but the module
never imports `datetime`: its imports are json, boto3, os, logging and
typing (lines 6-10) plus the function-local `import secrets` and
`import string` (lines 90-91, 98).  Python therefore raises
`NameError: name 'datetime' is not defined` at this line. -/
def datetime_utcnow_isoformat : Except RotErr String :=
  .error (.nameError "datetime")

/-- rotate_secrets.py lines 75-120, `create_secret`: read the CURRENT value,
classify it by its fields (`api_key` first, then `password`, then `key`),
generate a replacement value for the classified field, stamp `created_at`
and put the result as a new AWSPENDING version.  `choice` is the random
oracle for the password draw, `token_urlsafe` the value
`secrets.token_urlsafe(32)` would return, `fresh` the version id the store
would assign on put.  The function re-raises every exception of its body
(lines 118-120). -/
def create_secret (choice : Nat → Nat) (token_urlsafe fresh : String)
    (s : Store) : StepOut :=
  match get_secret_value s "AWSCURRENT" with   -- line 79, default stage
  | .error e => { result := .error e, store := s, accesses := ["GetSecretValue"] }
  | .ok cur =>
    let current_secret := cur.value
    if (current_secret.lookup "api_key").isSome then
      -- lines 83-86: manual rotation required, return without generating
      { result := .ok (), store := s, accesses := ["GetSecretValue"] }
    else
      let generated : Option StrMap :=
        if (current_secret.lookup "password").isSome then
          -- lines 88-94
          some (strSet current_secret "password" (new_password choice))
        else if (current_secret.lookup "key").isSome then
          -- lines 96-100
          some (strSet current_secret "key" token_urlsafe)
        else none
      match generated with
      | none =>
        -- lines 102-104: unknown secret type, log and return
        { result := .ok (), store := s, accesses := ["GetSecretValue"] }
      | some cs =>
        -- lines 106-107: `current_secret['created_at'] = str(datetime.utcnow().isoformat())`
        match datetime_utcnow_isoformat with
        | .error e =>
          { result := .error e, store := s, accesses := ["GetSecretValue"] }
        | .ok ts =>
          -- lines 109-114 (unreachable while `datetime` stays unimported)
          { result := .ok (),
            store := put_secret_value s fresh (strSet cs "created_at" ts) "AWSPENDING",
            accesses := ["GetSecretValue", "PutSecretValue"] }

/-- rotate_secrets.py lines 122-124, `set_secret`: a no-op. -/
def set_secret (s : Store) : StepOut :=
  { result := .ok (), store := s, accesses := [] }

/-- rotate_secrets.py lines 126-151, `test_secret`: fetch the AWSPENDING
value and validate it, checking the `password` field first (length ≥ 8) and
otherwise the `key` field (length ≥ 16); values with neither field pass.
Every exception, including the store's ResourceNotFound, is re-raised
(lines 149-151). -/
def test_secret (s : Store) : StepOut :=
  match get_secret_value s "AWSPENDING" with   -- lines 130-133
  | .error e => { result := .error e, store := s, accesses := ["GetSecretValue"] }
  | .ok pending =>
    let secret_data := pending.value
    let validation : Except RotErr Unit :=
      match secret_data.lookup "password" with
      | some p =>
        if p.length < 8 then .error (.valueError "Password too short") else .ok ()
      | none =>
        match secret_data.lookup "key" with
        | some k =>
          if k.length < 16 then .error (.valueError "Key too short") else .ok ()
        | none => .ok ()
    { result := validation, store := s, accesses := ["GetSecretValue"] }

/-- rotate_secrets.py lines 153-167, `finish_secret`: line 160 computes
`describe_secret(...)['VersionIdsToStages'].get('AWSPENDING', [None])[0]`.
`VersionIdsToStages` maps version ids to stage lists, so the `.get` looks
for a version whose id is the literal string `'AWSPENDING'`; when absent the
default `[None]` makes the expression `None`, and when (pathologically)
present, `[0]` takes the first staging label of that version, or raises
IndexError on an empty stage list.  The result is passed to
UpdateSecretVersionStage as `MoveToVersionId`. -/
def finish_secret (s : Store) : StepOut :=
  let m := versionIdsToStages s
  let first : Except RotErr (Option String) :=
    match m.lookup "AWSPENDING" with
    | some stages =>
      match stages with
      | [] => .error .indexError
      | st :: _ => .ok (some st)
    | none => .ok none
  match first with
  | .error e => { result := .error e, store := s, accesses := ["DescribeSecret"] }
  | .ok moveTo =>
    match update_secret_version_stage s "AWSCURRENT" moveTo with
    | .error e =>
      { result := .error e, store := s,
        accesses := ["DescribeSecret", "UpdateSecretVersionStage"] }
    | .ok s2 =>
      { result := .ok (), store := s2,
        accesses := ["DescribeSecret", "UpdateSecretVersionStage"] }

/-- The Lambda invocation event, carrying the optional `SecretId` and
`Step` entries the handler reads. -/
structure Event where
  secretId : Option String
  step : Option String
deriving Repr, DecidableEq

/-- The handler's HTTP-style response: status code 200 on success, 500 with
the stringified exception on failure (rotate_secrets.py lines 57-73). -/
structure Response where
  statusCode : Nat
  error : Option RotErr
deriving Repr, DecidableEq

/-- A full handler invocation: response, resulting store, store API calls. -/
structure HandlerOut where
  response : Response
  store : Store
  accesses : List String
deriving Repr, DecidableEq

/-- rotate_secrets.py lines 19-73, `handler`: reject a missing (or falsy,
hence also empty) `SecretId`, default a missing `Step` to `createSecret`,
dispatch on the step name, reject unknown step names, and catch every
exception into a 500 response. -/
def handler (choice : Nat → Nat) (token_urlsafe fresh : String) (ev : Event)
    (s : Store) : HandlerOut :=
  let missingId : HandlerOut :=
    { response := ⟨500, some (.valueError "SecretId not provided in event")⟩,
      store := s, accesses := [] }
  match ev.secretId with
  | none => missingId
  | some arn =>
    if arn = "" then missingId   -- line 35: `if not secret_arn`
    else
      let step := ev.step.getD "createSecret"   -- line 39
      let out : StepOut :=
        if step = "createSecret" then create_secret choice token_urlsafe fresh s
        else if step = "setSecret" then set_secret s
        else if step = "testSecret" then test_secret s
        else if step = "finishSecret" then finish_secret s
        else
          { result := .error (.valueError ("Unknown step: " ++ step)),
            store := s, accesses := [] }
      let resp : Response :=
        match out.result with
        | .ok _ => ⟨200, none⟩     -- lines 57-63
        | .error e => ⟨500, some e⟩  -- lines 65-73
      { response := resp, store := out.store, accesses := out.accesses }

/-- Whether some version carries the given staging label. -/
def hasStage (s : Store) (label : String) : Bool :=
  s.any (fun v => v.stages.contains label)

/-- How many versions carry the given staging label. -/
def stageCount (s : Store) (label : String) : Nat :=
  s.countP (fun v => v.stages.contains label)

/-- Spec §3's stage-label invariant: at most one version is CURRENT and at
most one is PENDING. -/
abbrev stageInvariant (s : Store) : Prop :=
  stageCount s "AWSCURRENT" ≤ 1 ∧ stageCount s "AWSPENDING" ≤ 1

/-- Store well-formedness: version identifiers are store-assigned and
distinct (spec §3: "a version identifier (opaque, store-assigned)"). -/
abbrev wellFormedIds (s : Store) : Prop := (s.map Version.vid).Nodup

/-- A sequence of handler invocations, threading the store. -/
def runSteps (choice : Nat → Nat) (token_urlsafe fresh : String)
    (evs : List Event) (s : Store) : Store :=
  evs.foldl (fun st ev => (handler choice token_urlsafe fresh ev st).store) s

end Rotation

namespace Cognito

/-- A user-attribute map (string keys to string values). -/
abbrev Attrs := List (String × String)

/-- A value stored in the Cognito event's `response` dictionary: the
handlers write strings (message subject and body), booleans (auto-confirm
flags) and an attribute map. -/
inductive CVal where
  | s (v : String)
  | b (v : Bool)
  | attrs (v : Attrs)
deriving Repr, DecidableEq

/-- The `response` dictionary of a Cognito event. -/
abbrev RespMap := List (String × CVal)

/-- Python dict assignment on a response map. -/
def respSet (r : RespMap) (k : String) (v : CVal) : RespMap :=
  if (r.lookup k).isSome then
    r.map (fun p => if p.1 = k then (k, v) else p)
  else
    r ++ [(k, v)]

/-- The `request` sub-dictionary of a Cognito event; each key may be absent. -/
structure CRequest where
  userAttributes : Option Attrs
  codeParameter : Option String
deriving Repr, DecidableEq

/-- A Cognito trigger event, restricted to the keys the handlers touch;
each key may be absent, matching the raw-dictionary access patterns of the
Python code. -/
structure CEvent where
  userName : Option String
  triggerSource : Option String
  request : Option CRequest
  response : Option RespMap
deriving Repr, DecidableEq

/-- The safe read `event.get('request', {}).get('userAttributes', {})` that
every handler performs. -/
def userAttrsOf (ev : CEvent) : Attrs :=
  match ev.request with
  | none => []
  | some r => r.userAttributes.getD []

/-- The raw read `event['request']['codeParameter']` of the six customize
functions: a KeyError when `request` or `codeParameter` is absent. -/
def codeParameterOf (ev : CEvent) : Except String String :=
  match ev.request with
  | none => .error "KeyError: request"
  | some r =>
    match r.codeParameter with
    | none => .error "KeyError: codeParameter"
    | some c => .ok c

/-- The raw writes `event['response']['emailSubject'] = ...` and
`event['response']['emailMessage'] = ...` shared by the six customize
functions: a KeyError when `response` is absent, raised before either field
is written, so a failing customize function leaves the event untouched. -/
def setMessage (ev : CEvent) (subject body : String) : Except String CEvent :=
  match ev.response with
  | none => .error "KeyError: response"
  | some resp =>
    let resp2 := respSet (respSet resp "emailSubject" (.s subject))
      "emailMessage" (.s body)
    .ok { ev with response := some resp2 }

/-!
The six email bodies of custom_message.py are long HTML/plain-text templates
interpolating the recipient's given name and the Cognito code parameter;
their literal text decides no control flow, so each template is embedded as
a short function of the interpolated values.
-/

/-- custom_message.py lines 56-108, `customize_signup_message`. -/
def customize_signup_message (ev : CEvent) : Except String CEvent :=
  let given_name := (userAttrsOf ev).lookup "given_name" |>.getD "Friend"
  match codeParameterOf ev with
  | .error e => .error e
  | .ok code =>
    setMessage ev "Welcome to InnerWorld - Verify Your Email"
      ("Welcome to InnerWorld, " ++ given_name ++ "! Your Verification Code: " ++ code)

/-- custom_message.py lines 110-135, `customize_resend_code_message`. -/
def customize_resend_code_message (ev : CEvent) : Except String CEvent :=
  let given_name := (userAttrsOf ev).lookup "given_name" |>.getD "Friend"
  match codeParameterOf ev with
  | .error e => .error e
  | .ok code =>
    setMessage ev "InnerWorld - Your New Verification Code"
      ("Hi " ++ given_name ++ ", your new verification code: " ++ code)

/-- custom_message.py lines 137-164, `customize_forgot_password_message`. -/
def customize_forgot_password_message (ev : CEvent) : Except String CEvent :=
  let given_name := (userAttrsOf ev).lookup "given_name" |>.getD "Friend"
  match codeParameterOf ev with
  | .error e => .error e
  | .ok code =>
    setMessage ev "InnerWorld - Reset Your Password"
      ("Hi " ++ given_name ++ ", your password reset code is: " ++ code)

/-- custom_message.py lines 166-190, `customize_update_attribute_message`. -/
def customize_update_attribute_message (ev : CEvent) : Except String CEvent :=
  match codeParameterOf ev with
  | .error e => .error e
  | .ok code =>
    setMessage ev "InnerWorld - Verify Your Email Change"
      ("Please use this verification code to confirm the change: " ++ code)

/-- custom_message.py lines 192-214, `customize_verify_attribute_message`. -/
def customize_verify_attribute_message (ev : CEvent) : Except String CEvent :=
  match codeParameterOf ev with
  | .error e => .error e
  | .ok code =>
    setMessage ev "InnerWorld - Verify Your Information"
      ("Please verify your information with this code: " ++ code)

/-- custom_message.py lines 216-236, `customize_authentication_message`. -/
def customize_authentication_message (ev : CEvent) : Except String CEvent :=
  match codeParameterOf ev with
  | .error e => .error e
  | .ok code =>
    setMessage ev "InnerWorld - Your Login Code"
      ("Your InnerWorld login code is: " ++ code)

/-- The try-block of custom_message.py's `handler` (lines 25-50): route on
the trigger source; an unrecognized source only logs a warning and the event
is returned as is. -/
def custom_message_body (ev : CEvent) : Except String CEvent :=
  let trigger_source := ev.triggerSource.getD ""
  if trigger_source = "CustomMessage_SignUp" then
    customize_signup_message ev
  else if trigger_source = "CustomMessage_ResendCode" then
    customize_resend_code_message ev
  else if trigger_source = "CustomMessage_ForgotPassword" then
    customize_forgot_password_message ev
  else if trigger_source = "CustomMessage_UpdateUserAttribute" then
    customize_update_attribute_message ev
  else if trigger_source = "CustomMessage_VerifyUserAttribute" then
    customize_verify_attribute_message ev
  else if trigger_source = "CustomMessage_Authentication" then
    customize_authentication_message ev
  else
    .ok ev

/-- custom_message.py lines 14-54, `handler`: any exception of the body is
caught and the original event is returned (lines 52-54: "Return original
event if customization fails"). -/
def custom_message_handler (ev : CEvent) : Except String CEvent :=
  match custom_message_body ev with
  | .ok e => .ok e
  | .error _ => .ok ev

/-- A calendar date, for `date.today()` and the parsed birthdate. -/
structure Date where
  year : Nat
  month : Nat
  day : Nat
deriving Repr, DecidableEq

/-- Day count of a month, Gregorian rules. -/
def daysInMonth (y m : Nat) : Nat :=
  if m = 2 then
    if y % 4 = 0 ∧ (y % 100 ≠ 0 ∨ y % 400 = 0) then 29 else 28
  else if m = 4 ∨ m = 6 ∨ m = 9 ∨ m = 11 then 30
  else 31

/-- Split a character list on a separator character. -/
def splitChars (sep : Char) : List Char → List (List Char)
  | [] => [[]]
  | c :: cs =>
    let rest := splitChars sep cs
    if c = sep then [] :: rest
    else
      match rest with
      | [] => [[c]]
      | r :: rs => (c :: r) :: rs

/-- Read a nonempty all-digit character list as a decimal number. -/
def decDigits? (l : List Char) : Option Nat :=
  if l = [] then none
  else
    l.foldl
      (fun acc c =>
        match acc with
        | none => none
        | some n => if c.isDigit then some (n * 10 + (c.toNat - 48)) else none)
      (some 0)

/-- `datetime.strptime(birthdate, '%Y-%m-%d').date()` of pre_signup.py line
84.  CPython's strptime matches `%Y` against exactly four digits and `%m`
and `%d` against one or two, the whole string must be consumed, and the
matched numbers must form a valid calendar date (month 1-12, day within the
month, year at least `datetime.MINYEAR = 1`); anything else raises
ValueError (modelled as `none`).  Digits are modelled as the ASCII digits;
CPython's `\d` would additionally match other Unicode decimal digits, which
this embedding's character model does not cover, so the theorems about age
validation quantify over ASCII birthdate strings only. -/
def parseDate (s : String) : Option Date :=
  match splitChars '-' s.toList with
  | [yc, mc, dc] =>
    match decDigits? yc, decDigits? mc, decDigits? dc with
    | some y, some m, some d =>
      if yc.length = 4 ∧ mc.length ≤ 2 ∧ dc.length ≤ 2 ∧
         1 ≤ y ∧ 1 ≤ m ∧ m ≤ 12 ∧ 1 ≤ d ∧ d ≤ daysInMonth y m then
        some ⟨y, m, d⟩
      else none
    | _, _, _ => none
  | _ => none

/-- pre_signup.py lines 71-92, `validate_age`: parse the birthdate, compute
the age against today's date with the lexicographic month/day adjustment of
line 86, and require 13 or more; any parse failure returns False. -/
def validate_age (today : Date) (birthdate : String) : Bool :=
  match parseDate birthdate with
  | none => false
  | some b =>
    let adjust : Int :=
      if today.month < b.month ∨ (today.month = b.month ∧ today.day < b.day)
      then 1 else 0
    let age : Int := (today.year : Int) - (b.year : Int) - adjust
    decide (13 ≤ age)

/-- `json.dumps(...)` of pre_signup.py lines 55-61: the serialized default
preference object. -/
def default_preferences : String :=
  "\x7b\"personas_enabled\": [\"courage\", \"comfort\", \"creative\", \"compass\"], \"session_reminders\": true, \"data_retention_days\": 30, \"privacy_mode\": \"standard\"\x7d"

/-- pre_signup.py lines 41-63, after the age gate: auto-confirm external
provider signups (raw `event['response']` writes), copy
`event['request']['userAttributes']` into the response (raw reads and
writes, each a KeyError when the key is absent), and default the consent
version and user preferences.  The Python code aliases the response's
`userAttributes` to the request's dictionary; the embedding records the
resulting response value, which no proved property distinguishes from the
aliased original. -/
def pre_signup_after_age (ev : CEvent) : Except String CEvent :=
  let step1 : Except String CEvent :=
    if ev.triggerSource = some "PreSignUp_ExternalProvider" then
      match ev.response with
      | none => .error "KeyError: response"
      | some resp =>
        let resp2 := respSet (respSet resp "autoConfirmUser" (.b true))
          "autoVerifyEmail" (.b true)
        .ok { ev with response := some resp2 }
    else .ok ev
  match step1 with
  | .error e => .error e
  | .ok ev1 =>
    match ev1.request with
    | none => .error "KeyError: request"
    | some req =>
      match req.userAttributes with
      | none => .error "KeyError: userAttributes"
      | some ua =>
        match ev1.response with
        | none => .error "KeyError: response"
        | some resp =>
          let ua1 :=
            if (ua.lookup "custom:consent_version").isSome then ua
            else strSet ua "custom:consent_version" "1.0"
          let ua2 :=
            if (ua1.lookup "custom:user_preferences").isSome then ua1
            else strSet ua1 "custom:user_preferences" default_preferences
          .ok { ev1 with response := some (respSet resp "userAttributes" (.attrs ua2)) }

/-- The try-block of pre_signup.py's `handler` (lines 25-64): read the user
attributes safely, raise a ValueError when a birthdate is present, truthy
and fails the age validation, then apply the response mutations.  The guard
`if birthdate:` at line 36 is Python truthiness: validation is skipped both
when the attribute is absent (`.get` returns None) and when it is the empty
string. -/
def pre_signup_body (today : Date) (ev : CEvent) : Except String CEvent :=
  let user_attributes := userAttrsOf ev
  match user_attributes.lookup "birthdate" with
  | some birthdate =>
    if birthdate = "" then pre_signup_after_age ev
    else if validate_age today birthdate then pre_signup_after_age ev
    else .error "Users must be 13 years or older to register"
  | none => pre_signup_after_age ev

/-- pre_signup.py lines 14-69, `handler`: the except clause (lines 66-69)
logs and re-raises, so every failure propagates to block user creation. -/
def pre_signup_handler (today : Date) (ev : CEvent) : Except String CEvent :=
  match pre_signup_body today ev with
  | .ok e => .ok e
  | .error e => .error e

/-- pre_authentication.py lines 57-95, `validate_user_status`: False when
the `email` attribute is missing or empty (lines 73-76); the
`email_verified` check (lines 79-83) only logs; otherwise True.  The inner
try/except returning False catches nothing reachable. -/
def validate_user_status (user_attributes : Attrs) : Bool :=
  let email := (user_attributes.lookup "email").getD ""
  if email = "" then false else true

/-- pre_authentication.py lines 15-55, `handler`: raise a ValueError when
`validate_user_status` fails; the except clause (lines 45-55) logs the
failed attempt (swallowing its own errors) and re-raises to block
authentication. -/
def pre_authentication_handler (ev : CEvent) : Except String CEvent :=
  let user_attributes := userAttrsOf ev
  if validate_user_status user_attributes then .ok ev
  else .error "Account access has been restricted. Please contact support."

/-- post_confirmation.py lines 53-98, `initialize_user_profile`: builds the
profile item and performs a DynamoDB put_item, whose outcome is the
`putItemFails` parameter; the function's own try/except (lines 96-98:
"Don't raise - we don't want to fail confirmation") swallows every failure,
so it always returns normally. -/
def initialize_user_profile (putItemFails : Bool) : Except String Unit :=
  match (if putItemFails then (.error "put_item failed" : Except String Unit)
         else .ok ()) with
  | .ok _ => .ok ()
  | .error _ => .ok ()

/-- post_confirmation.py lines 100-119, `initialize_graph_context`: logs
only (placeholder for the Neptune integration), with its own swallowing
try/except. -/
def initialize_graph_context : Except String Unit := .ok ()

/-- post_confirmation.py lines 121-140, `send_welcome_notification`: logs
only, with its own swallowing try/except. -/
def send_welcome_notification : Except String Unit := .ok ()

/-- post_confirmation.py lines 18-51, `handler`: run the three
initialization steps and return the event unmodified; the except clause
(lines 48-51: "Don't fail the confirmation process") returns the original
event. -/
def post_confirmation_handler (putItemFails : Bool) (ev : CEvent) :
    Except String CEvent :=
  let body : Except String CEvent := do
    let _ ← initialize_user_profile putItemFails
    let _ ← initialize_graph_context
    let _ ← send_welcome_notification
    pure ev
  match body with
  | .ok e => .ok e
  | .error _ => .ok ev

/-- post_authentication.py lines 54-85, `update_user_login_info`: a
DynamoDB update_item whose outcome is the parameter; its own try/except
(lines 84-85) swallows every failure. -/
def update_user_login_info (updateFails : Bool) : Except String Unit :=
  match (if updateFails then (.error "update_item failed" : Except String Unit)
         else .ok ()) with
  | .ok _ => .ok ()
  | .error _ => .ok ()

/-- post_authentication.py lines 87-131, `cache_user_context`: a DynamoDB
put_item whose outcome is the parameter; its own try/except (lines 130-131)
swallows every failure. -/
def cache_user_context (putFails : Bool) : Except String Unit :=
  match (if putFails then (.error "put_item failed" : Except String Unit)
         else .ok ()) with
  | .ok _ => .ok ()
  | .error _ => .ok ()

/-- post_authentication.py lines 133-167, `update_session_metrics`: a
DynamoDB update_item whose outcome is the parameter; its own try/except
(lines 166-167) swallows every failure. -/
def update_session_metrics (metricsFails : Bool) : Except String Unit :=
  match (if metricsFails then (.error "update_item failed" : Except String Unit)
         else .ok ()) with
  | .ok _ => .ok ()
  | .error _ => .ok ()

/-- post_authentication.py lines 18-52, `handler`: run the three update
steps and return the event unmodified; the except clause (lines 49-52:
"Don't fail the authentication process") returns the original event. -/
def post_authentication_handler (updateFails putFails metricsFails : Bool)
    (ev : CEvent) : Except String CEvent :=
  let body : Except String CEvent := do
    let _ ← update_user_login_info updateFails
    let _ ← cache_user_context putFails
    let _ ← update_session_metrics metricsFails
    pure ev
  match body with
  | .ok e => .ok e
  | .error _ => .ok ev

/-- A well-formed signup event whose code parameter and response are
present. -/
def exSignupEvent : CEvent :=
  { userName := some "alice"
    triggerSource := some "CustomMessage_SignUp"
    request := some { userAttributes := some [("email", "a@example.com"), ("given_name", "Alice")]
                      codeParameter := some "123456" }
    response := some [] }

/-- A signup-message event whose `response` key is absent, so the customize
function raises a KeyError. -/
def exNoResponseEvent : CEvent :=
  { userName := some "bob"
    triggerSource := some "CustomMessage_SignUp"
    request := some { userAttributes := some [("email", "b@example.com")]
                      codeParameter := some "654321" }
    response := none }

/-- A pre-signup event with a birthdate below the age floor. -/
def exUnderageEvent : CEvent :=
  { userName := some "kid"
    triggerSource := some "PreSignUp_SignUp"
    request := some { userAttributes := some [("email", "k@example.com"), ("birthdate", "2020-01-01")]
                      codeParameter := none }
    response := some [] }

/-- A pre-authentication event whose user attributes carry no email. -/
def exNoEmailEvent : CEvent :=
  { userName := some "carol"
    triggerSource := some "PreAuthentication_Authentication"
    request := some { userAttributes := some [("given_name", "Carol")]
                      codeParameter := none }
    response := some [] }

/-- Today's date used by the concrete pre-signup scenario. -/
def exToday : Date := ⟨2026, 10, 12⟩

end Cognito

namespace Rotation

/-- The Secret Type Policy classification of spec §4.2. -/
inductive SecretKind where
  | apiKey
  | password
  | key
  | unknown
deriving Repr, DecidableEq

/-- Classification following spec §4.2's words: the fixed priority order
api_key > password > key > unknown. -/
def specClassify (j : StrMap) : SecretKind :=
  if (j.lookup "api_key").isSome then .apiKey
  else if (j.lookup "password").isSome then .password
  else if (j.lookup "key").isSome then .key
  else .unknown

/-- The validation-failure predicate as claim C5 words it: the value's
classified field — classification priority api_key > password > key >
unknown — is shorter than its minimum, with api_key and unknown passing
trivially.  Stated from the spec, to be compared with `test_secret`. -/
def specTestFails (j : StrMap) : Bool :=
  match specClassify j with
  | .password => decide (((j.lookup "password").getD "").length < 8)
  | .key => decide (((j.lookup "key").getD "").length < 16)
  | .apiKey => false
  | .unknown => false

/-- The classification `test_secret` actually implements: priority
password > key, with no api_key precedence (the amended claim C5). -/
def testClassify (j : StrMap) : SecretKind :=
  if (j.lookup "password").isSome then .password
  else if (j.lookup "key").isSome then .key
  else .unknown

/-- The classified field of a value under `testClassify`. -/
def classifiedField (j : StrMap) : String :=
  match testClassify j with
  | .password => (j.lookup "password").getD ""
  | .key => (j.lookup "key").getD ""
  | _ => ""

/-- Minimum acceptable length per classification (spec §4.2). -/
def minLength : SecretKind → Nat
  | .password => 8
  | .key => 16
  | _ => 0

/-- The amended claim C5's validation-failure predicate: the classified
field (priority password > key, no api_key precedence) is shorter than its
minimum. -/
def validationFails (j : StrMap) : Bool :=
  decide ((classifiedField j).length < minLength (testClassify j))

/-- A secret mid-cycle: version v1 labeled CURRENT with the old password,
version v2 labeled PENDING with a fresh long one. -/
def midCycleStore : Store :=
  [⟨"v1", [("password", "oldpassword1")], ["AWSCURRENT"]⟩,
   ⟨"v2", [("password", "newpassword22222")], ["AWSPENDING"]⟩]

/-- A password-bearing secret before any rotation step. -/
def passwordStore : Store :=
  [⟨"v1", [("password", "oldpassword1")], ["AWSCURRENT"]⟩]

/-- A secret whose values carry an api_key together with a password; the
PENDING value's password is 3 characters long (claim C5's precedence case,
and claim C6's precedence case on the CURRENT value). -/
def apiKeyStore : Store :=
  [⟨"v1", [("api_key", "externally-issued"), ("password", "abcdefgh")], ["AWSCURRENT"]⟩,
   ⟨"v2", [("api_key", "externally-issued"), ("password", "abc")], ["AWSPENDING"]⟩]

/-- The PENDING version of `apiKeyStore`. -/
def apiKeyPendingVersion : Version :=
  ⟨"v2", [("api_key", "externally-issued"), ("password", "abc")], ["AWSPENDING"]⟩

/-- The four rotation-cycle invocations for one secret, in order. -/
def fourStepCycle : List Event :=
  [⟨some "arn:secret", some "createSecret"⟩,
   ⟨some "arn:secret", some "setSecret"⟩,
   ⟨some "arn:secret", some "testSecret"⟩,
   ⟨some "arn:secret", some "finishSecret"⟩]

/-! Helper lemmas about the rotation steps. -/

/-- `create_secret` never reaches its put: the api_key and unknown branches
return first, and the generating branches raise the NameError of the
unimported `datetime` before line 110. -/
lemma create_secret_store_eq (choice : Nat → Nat) (tok fresh : String)
    (s : Store) : (create_secret choice tok fresh s).store = s := by
  unfold create_secret
  cases get_secret_value s "AWSCURRENT" with
  | error e => rfl
  | ok cur =>
    simp only [datetime_utcnow_isoformat]
    split
    · rfl
    · split <;> rfl

/-- `test_secret` only reads. -/
lemma test_secret_store_eq (s : Store) : (test_secret s).store = s := by
  unfold test_secret
  cases get_secret_value s "AWSPENDING" <;> rfl

/-- In a store whose version ids avoid the literal string `AWSPENDING`, the
dictionary misread of finish_secret's line 160 finds nothing. -/
lemma lookup_versionIdsToStages_none (s : Store)
    (h : ∀ v ∈ s, v.vid ≠ "AWSPENDING") :
    (versionIdsToStages s).lookup "AWSPENDING" = none := by
  rw [List.lookup_eq_none_iff]
  rintro ⟨k, stages⟩ hp
  simp only [versionIdsToStages, List.mem_map] at hp
  obtain ⟨v, hv, heq⟩ := hp
  have : v.vid = k := congrArg Prod.fst heq
  simpa [bne, ← this] using fun hk => h v hv hk.symm

/-- Membership of a label in an appended singleton of a different label. -/
lemma contains_append_singleton_ne {l : List String} {a b : String}
    (h : a ≠ b) : (l ++ [b]).contains a = l.contains a := by
  simp [List.contains_eq_any_beq, List.any_append, h]

/-- A successful relabel call has passed both guards and mapped `relabel`
over the store. -/
lemma update_ok_elim {s : Store} {stage vid : String} {s2 : Store}
    (h : update_secret_version_stage s stage (some vid) = .ok s2) :
    (s.any (fun v => v.stages.contains stage && v.vid != vid)) = false ∧
    s2 = s.map (relabel stage vid) := by
  simp only [update_secret_version_stage] at h
  cases h1 : s.any (fun v => v.vid == vid) with
  | false => rw [h1] at h; simp at h
  | true =>
    rw [h1] at h
    cases h2 : s.any (fun v => v.stages.contains stage && v.vid != vid) with
    | true => rw [h2] at h; simp at h
    | false =>
      rw [h2] at h
      simp only [Bool.not_true, Bool.false_eq_true, if_false, if_true] at h
      refine ⟨rfl, ?_⟩
      simp only [Except.ok.injEq] at h
      exact h.symm

/-- The guard of a successful relabel: every holder of the stage is the
target version. -/
lemma guard_contains_imp {s : Store} {stage vid : String}
    (hg : (s.any (fun v => v.stages.contains stage && v.vid != vid)) = false)
    {v : Version} (hv : v ∈ s) (hc : v.stages.contains stage = true) :
    v.vid = vid := by
  rw [List.any_eq_false] at hg
  have hx := hg v hv
  simp at hx hc
  exact hx hc

/-- `relabel` keeps every version id. -/
lemma vids_map_relabel (s : Store) (stage vid : String) :
    (s.map (relabel stage vid)).map Version.vid = s.map Version.vid := by
  rw [List.map_map]
  apply List.map_congr_left
  intro v _
  simp only [Function.comp_apply, relabel]
  split <;> rfl

/-- After a guarded relabel, at most the target version carries the stage. -/
lemma stageCount_relabel_self {s : Store} {stage vid : String}
    (hwf : wellFormedIds s)
    (hg : (s.any (fun v => v.stages.contains stage && v.vid != vid)) = false) :
    stageCount (s.map (relabel stage vid)) stage ≤ 1 := by
  unfold stageCount
  rw [List.countP_map]
  have h1 : List.countP ((fun v => v.stages.contains stage) ∘ relabel stage vid) s
      = List.countP (fun v => v.vid == vid) s := by
    apply List.countP_congr
    intro v hv
    simp only [Function.comp_apply, relabel]
    by_cases hvv : v.vid = vid
    · have hb : (v.vid == vid) = true := by simp [hvv]
      simp only [hb, if_true]
      by_cases hc : stage ∈ v.stages
      · simp [hc, hb]
      · simp [hc, hb, List.mem_append]
    · have hb : (v.vid == vid) = false := by simp [hvv]
      simp only [hb, Bool.false_eq_true, if_false, iff_false]
      intro hc
      exact hvv (guard_contains_imp hg hv (by simpa using hc))
  rw [h1]
  have h2 : List.countP (fun v => v.vid == vid) s
      = (s.map Version.vid).count vid := by
    rw [List.count_eq_countP, List.countP_map]
    rfl
  rw [h2]
  exact List.nodup_iff_count_le_one.mp hwf vid

/-- Relabelling with one stage does not change how many versions carry a
different stage. -/
lemma stageCount_relabel_other {s : Store} {stage vid label : String}
    (hne : label ≠ stage) :
    stageCount (s.map (relabel stage vid)) label = stageCount s label := by
  unfold stageCount
  rw [List.countP_map]
  apply List.countP_congr
  intro v _
  simp only [Function.comp_apply, relabel]
  split
  · split
    · exact Iff.rfl
    · rw [contains_append_singleton_ne hne]
  · exact Iff.rfl

/-- A successful UpdateSecretVersionStage call (as finish_secret issues it,
with stage AWSCURRENT) preserves well-formedness and the stage-label
invariant. -/
lemma update_preserves {s s2 : Store} {mt : Option String}
    (hwf : wellFormedIds s) (hinv : stageInvariant s)
    (h : update_secret_version_stage s "AWSCURRENT" mt = .ok s2) :
    wellFormedIds s2 ∧ stageInvariant s2 := by
  cases mt with
  | none => simp [update_secret_version_stage] at h
  | some vid =>
    obtain ⟨hg, rfl⟩ := update_ok_elim h
    refine ⟨?_, ?_, ?_⟩
    · unfold wellFormedIds
      rw [vids_map_relabel]
      exact hwf
    · exact stageCount_relabel_self hwf hg
    · rw [stageCount_relabel_other (by decide)]
      exact hinv.2

/-- Whatever `finish_secret` does — fail on the misread lookup, fail inside
the store call, or (only on a pathological store) actually relabel — the
well-formedness and stage-label invariants are preserved. -/
lemma finish_secret_preserves (s : Store)
    (hwf : wellFormedIds s) (hinv : stageInvariant s) :
    wellFormedIds (finish_secret s).store ∧
    stageInvariant (finish_secret s).store := by
  cases hm : (versionIdsToStages s).lookup "AWSPENDING" with
  | none =>
    simp only [finish_secret, hm, update_secret_version_stage]
    exact ⟨hwf, hinv⟩
  | some stages =>
    cases stages with
    | nil =>
      simp only [finish_secret, hm]
      exact ⟨hwf, hinv⟩
    | cons st rest =>
      cases hu : update_secret_version_stage s "AWSCURRENT" (some st) with
      | error e =>
        simp only [finish_secret, hm, hu]
        exact ⟨hwf, hinv⟩
      | ok s2 =>
        simp only [finish_secret, hm, hu]
        exact update_preserves hwf hinv hu

/-- Every handler invocation either leaves the store untouched or leaves it
as `finish_secret` does: `create_secret` raises the NameError before its
put, `set_secret` and `test_secret` do not write, and rejected events are
turned away before any store access. -/
lemma handler_store_eq_or (choice : Nat → Nat) (tok fresh : String)
    (ev : Event) (s : Store) :
    (handler choice tok fresh ev s).store = s ∨
    (handler choice tok fresh ev s).store = (finish_secret s).store := by
  unfold handler
  cases ev.secretId with
  | none => left; rfl
  | some arn =>
    by_cases ha : arn = ""
    · left; simp [ha]
    · simp only [if_neg ha]
      by_cases h1 : ev.step.getD "createSecret" = "createSecret"
      · left; simp [h1, create_secret_store_eq]
      · by_cases h2 : ev.step.getD "createSecret" = "setSecret"
        · left; simp [h1, h2, set_secret]
        · by_cases h3 : ev.step.getD "createSecret" = "testSecret"
          · left; simp [h1, h2, h3, test_secret_store_eq]
          · by_cases h4 : ev.step.getD "createSecret" = "finishSecret"
            · right; simp [h1, h2, h3, h4]
            · left; simp [h1, h2, h3, h4]

/-- One handler invocation preserves well-formedness and the stage-label
invariant. -/
lemma handler_preserves (choice : Nat → Nat) (tok fresh : String)
    (ev : Event) (s : Store)
    (hwf : wellFormedIds s) (hinv : stageInvariant s) :
    wellFormedIds (handler choice tok fresh ev s).store ∧
    stageInvariant (handler choice tok fresh ev s).store := by
  rcases handler_store_eq_or choice tok fresh ev s with h | h
  · rw [h]; exact ⟨hwf, hinv⟩
  · rw [h]; exact finish_secret_preserves s hwf hinv

/-- Any sequence of handler invocations preserves both invariants. -/
lemma runSteps_preserves (choice : Nat → Nat) (tok fresh : String)
    (evs : List Event) :
    ∀ s : Store, wellFormedIds s → stageInvariant s →
      wellFormedIds (runSteps choice tok fresh evs s) ∧
      stageInvariant (runSteps choice tok fresh evs s) := by
  induction evs with
  | nil => intro s hwf hinv; exact ⟨hwf, hinv⟩
  | cons ev rest ih =>
    intro s hwf hinv
    have h := handler_preserves choice tok fresh ev s hwf hinv
    simpa [runSteps, List.foldl_cons] using ih _ h.1 h.2

/-- On a password-bearing CURRENT value with no api_key, `create_secret`
generates the new password and then raises the NameError of the unimported
`datetime` before writing anything. -/
lemma create_secret_password_name_error (choice : Nat → Nat)
    (tok fresh : String) (s : Store) (cur : Version)
    (hcur : get_secret_value s "AWSCURRENT" = .ok cur)
    (hak : cur.value.lookup "api_key" = none)
    (hpw : (cur.value.lookup "password").isSome = true) :
    (create_secret choice tok fresh s).result = .error (.nameError "datetime") ∧
    (create_secret choice tok fresh s).store = s := by
  unfold create_secret
  rw [hcur]
  simp [hak, hpw, datetime_utcnow_isoformat]

/-! The claims. -/

/-- C1: the claim states that after a successful `finish_secret` the PENDING
value has been promoted to CURRENT, the prior CURRENT demoted to PREVIOUS
and no PENDING remains.  The code never reaches that state: line 160 looks
up the key `'AWSPENDING'` in `VersionIdsToStages`, a mapping keyed by
version ids, so on every store whose version ids are store-assigned
identifiers (in particular, never the literal string `AWSPENDING`) the
lookup yields `None`, the store call rejects the `None` `MoveToVersionId`,
and `finish_secret` raises with the store unchanged — no promotion ever
happens. -/
theorem finish_secret_never_promotes (s : Store)
    (hpend : hasStage s "AWSPENDING" = true)
    (hcur : hasStage s "AWSCURRENT" = true)
    (hids : ∀ v ∈ s, v.vid ≠ "AWSPENDING") :
    (finish_secret s).result = .error .paramValidation ∧
    (finish_secret s).store = s := by
  have hl := lookup_versionIdsToStages_none s hids
  simp [finish_secret, hl, update_secret_version_stage]

/-- Witness for C1 on the concrete mid-cycle store. -/
theorem finish_secret_never_promotes_witness :
    (hasStage midCycleStore "AWSPENDING" = true ∧
     hasStage midCycleStore "AWSCURRENT" = true ∧
     ∀ v ∈ midCycleStore, v.vid ≠ "AWSPENDING") ∧
    (finish_secret midCycleStore).result = .error .paramValidation ∧
    (finish_secret midCycleStore).store = midCycleStore :=
  ⟨⟨by decide, by decide, by decide⟩,
   finish_secret_never_promotes midCycleStore (by decide) (by decide) (by decide)⟩

/-- C2: the claim states that a repeated `create_secret` with a PENDING
version already present detects it and returns success without generating.
The code performs no such detection: on a password-bearing secret it
unconditionally re-enters generation and raises the NameError of the
unimported `datetime`, returning failure, not success. -/
theorem create_secret_not_idempotent (choice : Nat → Nat)
    (tok fresh : String) (s : Store) (cur : Version)
    (hpend : hasStage s "AWSPENDING" = true)
    (hcur : get_secret_value s "AWSCURRENT" = .ok cur)
    (hak : cur.value.lookup "api_key" = none)
    (hpw : (cur.value.lookup "password").isSome = true) :
    (create_secret choice tok fresh s).result = .error (.nameError "datetime") ∧
    (create_secret choice tok fresh s).store = s :=
  create_secret_password_name_error choice tok fresh s cur hcur hak hpw

/-- Witness for C2 on the concrete mid-cycle store. -/
theorem create_secret_not_idempotent_witness :
    (create_secret (fun _ => 0) "tok" "v9" midCycleStore).result
        = .error (.nameError "datetime") ∧
    (create_secret (fun _ => 0) "tok" "v9" midCycleStore).store = midCycleStore :=
  create_secret_not_idempotent (fun _ => 0) "tok" "v9" midCycleStore
    ⟨"v1", [("password", "oldpassword1")], ["AWSCURRENT"]⟩
    (by decide) (by decide) (by decide) (by decide)

/-- C3: the claim states that on a password-bearing CURRENT value (without
api_key) `create_secret` succeeds and writes a PENDING version with a fresh
32-character password and a creation timestamp.  The code instead raises
`NameError` at line 107 — `datetime` is never imported in the module — and
writes nothing. -/
theorem create_secret_raises_name_error (choice : Nat → Nat)
    (tok fresh : String) (s : Store) (cur : Version)
    (hcur : get_secret_value s "AWSCURRENT" = .ok cur)
    (hak : cur.value.lookup "api_key" = none)
    (hpw : (cur.value.lookup "password").isSome = true) :
    (create_secret choice tok fresh s).result = .error (.nameError "datetime") ∧
    (create_secret choice tok fresh s).store = s ∧
    hasStage (create_secret choice tok fresh s).store "AWSPENDING"
      = hasStage s "AWSPENDING" := by
  obtain ⟨h1, h2⟩ := create_secret_password_name_error choice tok fresh s cur hcur hak hpw
  exact ⟨h1, h2, by rw [h2]⟩

/-- Witness for C3 on the concrete password-bearing store. -/
theorem create_secret_raises_name_error_witness :
    (create_secret (fun _ => 0) "tok" "v9" passwordStore).result
        = .error (.nameError "datetime") ∧
    (create_secret (fun _ => 0) "tok" "v9" passwordStore).store = passwordStore ∧
    hasStage (create_secret (fun _ => 0) "tok" "v9" passwordStore).store "AWSPENDING"
      = hasStage passwordStore "AWSPENDING" :=
  create_secret_raises_name_error (fun _ => 0) "tok" "v9" passwordStore
    ⟨"v1", [("password", "oldpassword1")], ["AWSCURRENT"]⟩
    (by decide) (by decide) (by decide)

/-- C4: from any well-formed store satisfying the stage-label invariant (at
most one CURRENT, at most one PENDING version), every sequence of handler
invocations — hence every sequence of createSecret / setSecret / testSecret
/ finishSecret steps — preserves the invariant.  Well-formedness here is
the distinctness of the store-assigned version identifiers (spec §3). -/
theorem stage_invariant_preserved (choice : Nat → Nat) (tok fresh : String)
    (evs : List Event) (s : Store)
    (hwf : wellFormedIds s) (hinv : stageInvariant s) :
    stageInvariant (runSteps choice tok fresh evs s) :=
  (runSteps_preserves choice tok fresh evs s hwf hinv).2

/-- Witness for C4: a full four-step cycle on the concrete mid-cycle store. -/
theorem stage_invariant_preserved_witness :
    stageInvariant (runSteps (fun _ => 0) "tok" "v9" fourStepCycle midCycleStore) :=
  stage_invariant_preserved (fun _ => 0) "tok" "v9" fourStepCycle midCycleStore
    (by decide) (by decide)

/-- C5 counterexample: the PENDING value of `apiKeyStore` carries an
api_key together with a 3-character password.  Under the claim's
classification (api_key first) validation passes trivially, but
`test_secret` checks the `password` field first and fails — so the claimed
fail-iff equivalence is false at this input. -/
theorem test_secret_api_key_precedence_counterexample :
    specClassify apiKeyPendingVersion.value = .apiKey ∧
    specTestFails apiKeyPendingVersion.value = false ∧
    get_secret_value apiKeyStore "AWSPENDING" = .ok apiKeyPendingVersion ∧
    (test_secret apiKeyStore).result = .error (.valueError "Password too short") := by
  refine ⟨by decide, by decide, by decide, by decide⟩

/-- C5 (amended): `test_secret` fails exactly when the PENDING value's
classified field is shorter than its minimum, with classification in the
priority order password > key > unknown — api_key has no precedence in
validation, unlike generation. -/
theorem test_secret_validation_iff (s : Store) (v : Version)
    (h : get_secret_value s "AWSPENDING" = .ok v) :
    ((test_secret s).result = .ok ()) ↔ validationFails v.value = false := by
  unfold test_secret
  rw [h]
  unfold validationFails classifiedField testClassify
  cases hp : v.value.lookup "password" with
  | some p =>
    simp only [hp, Option.isSome_some, if_true, Option.getD_some, minLength]
    by_cases hl : p.length < 8 <;> simp [hl]
  | none =>
    cases hk : v.value.lookup "key" with
    | some k =>
      simp only [hp, hk, Option.isSome_some, Option.isSome_none,
        Bool.false_eq_true, if_false, if_true, Option.getD_some, minLength]
      by_cases hl : k.length < 16 <;> simp [hl]
    | none =>
      simp [hp, hk, minLength]

/-- Witness for the amended C5 at the concrete api_key-and-short-password
store (validation fails there, and the handler result is not `ok`). -/
theorem test_secret_validation_iff_witness :
    (((test_secret apiKeyStore).result = .ok ()) ↔
      validationFails apiKeyPendingVersion.value = false) ∧
    validationFails apiKeyPendingVersion.value = true :=
  ⟨test_secret_validation_iff apiKeyStore apiKeyPendingVersion (by decide),
   by decide⟩

/-- C6: on a CURRENT value bearing an api_key — even together with a
password field, since the api_key check comes first — `create_secret`
returns success, leaves the store unchanged (hence no new PENDING version),
and its outcome does not depend on the random oracles, i.e. no generation
takes place. -/
theorem create_secret_api_key_manual_only (choice choice2 : Nat → Nat)
    (tok tok2 fresh fresh2 : String) (s : Store) (cur : Version)
    (hcur : get_secret_value s "AWSCURRENT" = .ok cur)
    (hak : (cur.value.lookup "api_key").isSome = true) :
    (create_secret choice tok fresh s).result = .ok () ∧
    (create_secret choice tok fresh s).store = s ∧
    create_secret choice tok fresh s = create_secret choice2 tok2 fresh2 s := by
  unfold create_secret
  rw [hcur]
  simp [hak]

/-- Witness for C6 on the concrete api_key-bearing store. -/
theorem create_secret_api_key_manual_only_witness :
    (create_secret (fun _ => 0) "tok" "v9" apiKeyStore).result = .ok () ∧
    (create_secret (fun _ => 0) "tok" "v9" apiKeyStore).store = apiKeyStore ∧
    create_secret (fun _ => 0) "tok" "v9" apiKeyStore
      = create_secret (fun _ => 1) "other" "v8" apiKeyStore :=
  create_secret_api_key_manual_only (fun _ => 0) (fun _ => 1)
    "tok" "other" "v9" "v8" apiKeyStore
    ⟨"v1", [("api_key", "externally-issued"), ("password", "abcdefgh")], ["AWSCURRENT"]⟩
    (by decide) (by decide)

/-- C7: `test_secret` never modifies the store — every version, value and
stage label is exactly as before, whether validation passes or fails — and
the same holds through a full `testSecret` handler invocation. -/
theorem test_secret_no_state_change (choice : Nat → Nat)
    (tok fresh arn : String) (s : Store) :
    (test_secret s).store = s ∧
    (handler choice tok fresh ⟨some arn, some "testSecret"⟩ s).store = s := by
  refine ⟨test_secret_store_eq s, ?_⟩
  unfold handler
  by_cases ha : arn = ""
  · simp [ha]
  · simp [ha, test_secret_store_eq]

/-- C8: events rejected before any store access: a missing `SecretId` (or
the falsy empty string) yields the 500 missing-identifier response, and an
unrecognized `Step` yields the 500 unknown-step response; in each case the
store is untouched and the list of performed store API calls is empty. -/
theorem invalid_events_rejected_before_store_access (choice : Nat → Nat)
    (tok fresh : String) (s : Store) (ev : Event) :
    (ev.secretId = none →
      handler choice tok fresh ev s =
        ⟨⟨500, some (.valueError "SecretId not provided in event")⟩, s, []⟩) ∧
    (ev.secretId = some "" →
      handler choice tok fresh ev s =
        ⟨⟨500, some (.valueError "SecretId not provided in event")⟩, s, []⟩) ∧
    (∀ arn st, ev.secretId = some arn → arn ≠ "" → ev.step = some st →
      st ≠ "createSecret" → st ≠ "setSecret" → st ≠ "testSecret" →
      st ≠ "finishSecret" →
      handler choice tok fresh ev s =
        ⟨⟨500, some (.valueError ("Unknown step: " ++ st))⟩, s, []⟩) := by
  refine ⟨?_, ?_, ?_⟩
  · intro h
    unfold handler
    rw [h]
  · intro h
    unfold handler
    rw [h]
    simp
  · intro arn st hid ha hst h1 h2 h3 h4
    unfold handler
    rw [hid, hst]
    simp [ha, h1, h2, h3, h4]

/-- Witness for C8 on concrete rejected events. -/
theorem invalid_events_rejected_witness :
    handler (fun _ => 0) "tok" "v9" ⟨none, some "createSecret"⟩ passwordStore =
      ⟨⟨500, some (.valueError "SecretId not provided in event")⟩, passwordStore, []⟩ ∧
    handler (fun _ => 0) "tok" "v9" ⟨some "arn:secret", some "deleteSecret"⟩ passwordStore =
      ⟨⟨500, some (.valueError ("Unknown step: " ++ "deleteSecret"))⟩, passwordStore, []⟩ :=
  ⟨(invalid_events_rejected_before_store_access (fun _ => 0) "tok" "v9"
      passwordStore ⟨none, some "createSecret"⟩).1 rfl,
   (invalid_events_rejected_before_store_access (fun _ => 0) "tok" "v9"
      passwordStore ⟨some "arn:secret", some "deleteSecret"⟩).2.2
     "arn:secret" "deleteSecret" rfl (by decide) rfl
     (by decide) (by decide) (by decide) (by decide)⟩

/-- C10: an event carrying a `SecretId` but no `Step` entry is not
rejected: `Step` defaults to `createSecret` (line 39), and the invocation is
literally the same as an explicit `createSecret` invocation; with a
non-empty identifier it runs `create_secret` on the store. -/
theorem missing_step_defaults_to_create (choice : Nat → Nat)
    (tok fresh arn : String) (s : Store) :
    handler choice tok fresh ⟨some arn, none⟩ s =
      handler choice tok fresh ⟨some arn, some "createSecret"⟩ s ∧
    (arn ≠ "" →
      (handler choice tok fresh ⟨some arn, none⟩ s).store =
        (create_secret choice tok fresh s).store ∧
      (handler choice tok fresh ⟨some arn, none⟩ s).accesses =
        (create_secret choice tok fresh s).accesses) := by
  refine ⟨rfl, ?_⟩
  intro ha
  unfold handler
  simp [ha]

/-- Witness for C10 at a concrete non-empty identifier. -/
theorem missing_step_defaults_to_create_witness :
    handler (fun _ => 0) "tok" "v9" ⟨some "arn:secret", none⟩ passwordStore =
      handler (fun _ => 0) "tok" "v9" ⟨some "arn:secret", some "createSecret"⟩ passwordStore ∧
    (handler (fun _ => 0) "tok" "v9" ⟨some "arn:secret", none⟩ passwordStore).store =
      (create_secret (fun _ => 0) "tok" "v9" passwordStore).store :=
  ⟨(missing_step_defaults_to_create (fun _ => 0) "tok" "v9" "arn:secret" passwordStore).1,
   ((missing_step_defaults_to_create (fun _ => 0) "tok" "v9" "arn:secret" passwordStore).2
     (by decide)).1⟩

end Rotation

namespace Cognito

/-- C9: the identity-trigger failure policy.  Any internal failure of the
post-confirmation and post-authentication handlers (modelled by the
failure flags of their store calls) is caught and the handler returns the
original event unmodified; any failure of the custom-message body is caught
and the original event is returned, and the custom-message handler never
raises; while an age-validation failure in pre-signup (a present, truthy —
i.e. non-empty, per line 36's `if birthdate:` — ASCII birthdate failing
`validate_age`) and a user-status-validation failure in pre-authentication
propagate as raised errors, blocking account creation or login. -/
theorem trigger_failure_policy :
    (∀ (putItemFails : Bool) (ev : CEvent),
      post_confirmation_handler putItemFails ev = .ok ev) ∧
    (∀ (a b c : Bool) (ev : CEvent),
      post_authentication_handler a b c ev = .ok ev) ∧
    (∀ ev : CEvent, (∃ e, custom_message_body ev = .error e) →
      custom_message_handler ev = .ok ev) ∧
    (∀ ev : CEvent, ∃ e2, custom_message_handler ev = .ok e2) ∧
    (∀ (today : Date) (ev : CEvent) (bd : String),
      (userAttrsOf ev).lookup "birthdate" = some bd →
      bd ≠ "" →
      (∀ c ∈ bd.toList, c.toNat < 128) →
      validate_age today bd = false →
      pre_signup_handler today ev =
        .error "Users must be 13 years or older to register") ∧
    (∀ ev : CEvent, validate_user_status (userAttrsOf ev) = false →
      pre_authentication_handler ev =
        .error "Account access has been restricted. Please contact support.") := by
  refine ⟨?_, ?_, ?_, ?_, ?_, ?_⟩
  · intro p ev
    cases p <;> rfl
  · intro a b c ev
    cases a <;> cases b <;> cases c <;> rfl
  · rintro ev ⟨e, he⟩
    simp [custom_message_handler, he]
  · intro ev
    cases h : custom_message_body ev with
    | ok e2 => exact ⟨e2, by simp [custom_message_handler, h]⟩
    | error e => exact ⟨ev, by simp [custom_message_handler, h]⟩
  · intro today ev bd hbd hne _hascii hage
    simp [pre_signup_handler, pre_signup_body, hbd, hne, hage]
  · intro ev hv
    simp [pre_authentication_handler, hv]

/-- Witness for C9 at concrete events: a failing profile put is swallowed,
a missing response key is swallowed, an underage birthdate blocks signup,
and a missing email blocks authentication. -/
theorem trigger_failure_policy_witness :
    post_confirmation_handler true exSignupEvent = .ok exSignupEvent ∧
    post_authentication_handler true true true exSignupEvent = .ok exSignupEvent ∧
    custom_message_handler exNoResponseEvent = .ok exNoResponseEvent ∧
    pre_signup_handler exToday exUnderageEvent =
      .error "Users must be 13 years or older to register" ∧
    pre_authentication_handler exNoEmailEvent =
      .error "Account access has been restricted. Please contact support." :=
  ⟨trigger_failure_policy.1 true exSignupEvent,
   trigger_failure_policy.2.1 true true true exSignupEvent,
   trigger_failure_policy.2.2.1 exNoResponseEvent ⟨"KeyError: response", by decide⟩,
   trigger_failure_policy.2.2.2.2.1 exToday exUnderageEvent "2020-01-01"
     (by decide) (by decide) (by decide) (by decide),
   trigger_failure_policy.2.2.2.2.2 exNoEmailEvent (by decide)⟩

end Cognito

end InnerWorld
